import Mathlib

/-!
Verification of the WoL-Caster network discovery and device identity engine
(`wol_caster.py`), as a shallow embedding in Lean 4.

External effects (ping, TCP connects, ARP, DNS, files, clocks) are modelled
as environment records whose fields give the outcome each probe would
observe; every Python `try/except` around such a probe becomes an
`Option`-valued field (`none` = the probe raised or produced nothing).
Python strings are `String`; Python `None`-or-string fields are
`Option String` (with Python truthiness: both `None` and `""` are falsy);
timestamps are `Nat` (`0` falsy, as in the code).
-/

namespace WolCaster

/-! ## String primitives (char-level models of the Python string operations) -/

/-- Python truthiness of an optional string: `None` and `""` are falsy. -/
def truthyS : Option String → Bool
  | none => false
  | some s => !(s == "")

/-- Python truthiness of a timestamp (`0` is falsy). -/
def truthyT (t : Nat) : Bool := !(t == 0)

/-- `mac.replace(':', '').replace('-', '')`: drop every `:` and `-`. -/
def stripSeparators (s : String) : String :=
  String.mk (s.data.filter (fun c => !(c == ':' || c == '-')))

/-- Consecutive pairs of a character list, the model of
`[s[i:i+2] for i in range(0, 12, 2)]` applied to a (≤12)-char string. -/
def chunk2 : List Char → List (List Char)
  | [] => []
  | [a] => [[a]]
  | a :: b :: rest => [a, b] :: chunk2 rest

/-- `sep.join(chunks)`. -/
def joinSep (sep : Char) : List (List Char) → List Char
  | [] => []
  | [x] => x
  | x :: xs => x ++ sep :: joinSep sep xs

/-- `':'.join(clean[i:i+2] for i in range(0, 12, 2))`. -/
def colonFormat12 (s : String) : String :=
  String.mk (joinSep ':' (chunk2 (s.data.take 12)))

/-- `str.split(sep)` on a single-character separator (Python semantics:
`"".split(sep) == [""]`, empty fields kept). -/
def splitChar (sep : Char) : List Char → List Char → List (List Char)
  | [], acc => [acc.reverse]
  | c :: rest, acc =>
      if c == sep then acc.reverse :: splitChar sep rest []
      else splitChar sep rest (c :: acc)

/-- `ip.split('.')[-1]`, the last octet text of a dotted address. -/
def lastOctet (ip : String) : String :=
  String.mk ((splitChar '.' ip.data []).getLastD [])

/-- Python `str.upper()` (ASCII, as produced by the `arp` output this code
reads). -/
def upperStr (s : String) : String :=
  String.mk (s.data.map Char.toUpper)

/-- `s.replace('-', ':')` for the single characters used here. -/
def dashesToColons (s : String) : String :=
  String.mk (s.data.map (fun c => if c == '-' then ':' else c))

/-- `needle in hay` — Python substring containment. -/
def containsSub : List Char → List Char → Bool
  | needle, [] => needle.isEmpty
  | needle, hay@(_ :: rest) => needle.isPrefixOf hay || containsSub needle rest

/-- Python `str.strip()` restricted to ASCII whitespace. -/
def isWS (c : Char) : Bool := c == ' ' || c == '\t' || c == '\n' || c == '\r'

/-- `line.strip()`. -/
def stripWS (s : String) : String :=
  String.mk (((s.data.dropWhile isWS).reverse.dropWhile isWS).reverse)

/-- `s.startswith(pre)`. -/
def startsWithStr (pre s : String) : Bool := pre.data.isPrefixOf s.data

/-! ## §4.5 MAC Resolver — `pad_mac_address` (wol_caster.py:551–582) -/

/-- `pad_mac_address(mac_address)`: strip `:`/`-`; if exactly 12 characters
remain, regroup in colon-separated pairs; if fewer, left-pad with `'0'` to
12 and regroup; if more, truncate to the first 12 and regroup. The empty
(falsy) string is returned unchanged. -/
def pad_mac_address (mac_address : String) : String :=
  if mac_address == "" then mac_address
  else
    let clean_mac := stripSeparators mac_address
    let current_length := clean_mac.data.length
    if current_length == 12 then
      colonFormat12 clean_mac
    else if current_length < 12 then
      colonFormat12 (String.mk (List.replicate (12 - current_length) '0' ++ clean_mac.data))
    else
      colonFormat12 (String.mk (clean_mac.data.take 12))

/-- The normalization `get_mac_address` applies to a regex match *before*
padding (wol_caster.py:524): `match.group(0).upper().replace('-', ':')`. -/
def normalizeMacText (s : String) : String := dashesToColons (upperStr s)

/-- Specification-side restatement of the pad rule's core: left-pad with
zeros to 12 characters, or truncate to the first 12. -/
def norm12 (l : List Char) : List Char :=
  if l.length ≤ 12 then List.replicate (12 - l.length) '0' ++ l else l.take 12

/-! ## Data model (§3) -/

/-- One device record. Python dict keys that may be absent are `Option`
fields (`none` = key absent or value `None`); `pingable` defaults to
`false`, mirroring `device.get('pingable', False)`. -/
structure Device where
  ip : String
  hostname : Option String := none
  mac : Option String := none
  vendor : Option String := none
  status : String := ""
  pingable : Bool := false
  last_seen : Nat := 0
  stored_last_seen : Option Nat := none
  network_context : Option String := none
  current_scan : Option Bool := none
  deriving DecidableEq, Repr

/-! ## Probe environment

Every external probe of the Python code is a `try/except`-guarded call to
the OS; its outcome is a field of this record (`none` / `false` = the call
raised, timed out, or found nothing). `ouiLines` is the content of the
local OUI database file (`[]` = file missing), `hostsOf` the host list of
`ipaddress.IPv4Network(subnet, strict=False).hosts()` (`none` = the
constructor raised on an unparsable subnet string). -/
structure ScanEnv where
  isDarwin : Bool
  ping : String → Bool
  portOpenStatus : String → Nat → Bool
  revDns : String → Option String
  netbiosName : String → Option String
  appleName : String → Option String
  portOpenId : String → Nat → Bool
  macOf : String → Option String
  ouiLines : List String
  now : Nat
  hostsOf : Option (List String)

/-! ## §4.3 Status Prober — `check_device_status` (wol_caster.py:431–456) -/

/-- The fixed ordered standby port set (wol_caster.py:441). -/
def standby_ports : List Nat := [80, 443, 22, 23, 3389, 5900]

/-- `check_device_status(ip)`: ping success → `"online"`; else first
successful TCP connect in `standby_ports` → `"standby"`; else
`"offline"`. -/
def check_device_status (env : ScanEnv) (ip : String) : String :=
  if env.ping ip then "online"
  else if standby_ports.any (fun port => env.portOpenStatus ip port) then "standby"
  else "offline"

/-! ## §4.6 Vendor Lookup — `get_mac_vendor` (wol_caster.py:584–644) -/

/-- The hardcoded fallback vendor table (wol_caster.py:627–635). -/
def common_vendors : List (String × String) :=
  [("00:50:56", "VMware"), ("00:0C:29", "VMware"), ("00:1A:11", "Google"),
   ("00:16:3E", "Xen"), ("52:54:00", "QEMU"), ("08:00:27", "VirtualBox"),
   ("0E:C6:63", "ASIX ELECTRONICS CORP.")]

/-- The OUI database loop (wol_caster.py:611–622): first stripped,
non-empty line containing `dbPrefix` as a substring whose second
tab-field strips to a non-empty vendor name. -/
def oui_db_search (dbPrefix : String) : List String → Option String
  | [] => none
  | line0 :: rest =>
      let line := stripWS line0
      if !(line == "") && containsSub dbPrefix.data line.data then
        match splitChar '\t' line.data [] with
        | _ :: p1 :: _ =>
            let vendor := stripWS (String.mk p1)
            if !(vendor == "") then some vendor else oui_db_search dbPrefix rest
        | _ => oui_db_search dbPrefix rest
      else oui_db_search dbPrefix rest

/-- `macPrefix.replace(":", "").upper()`. -/
def stripColons (s : String) : String :=
  String.mk (s.data.filter (fun c => !(c == ':')))

/-- `get_mac_vendor(mac_address)`: `None` for malformed input; else search
the OUI database lines, then the hardcoded table; `None` when both miss. -/
def get_mac_vendor (ouiLines : List String) (mac_address : String) : Option String :=
  if mac_address == "" then none
  else
    let groups := splitChar ':' mac_address.data []
    if groups.length < 3 then none
    else
      let macPrefix := upperStr (String.mk (joinSep ':' (groups.take 3)))
      let dbPrefix := upperStr (stripColons macPrefix)
      match oui_db_search dbPrefix ouiLines with
      | some vendor => some vendor
      | none =>
          match common_vendors.find? (fun kv => kv.1 == macPrefix) with
          | some kv => some kv.2
          | none => none

/-! ## §4.4 Identity Resolver — `get_device_identifier` (wol_caster.py:646–718)

The five sequential early-return methods become a chain of helper
functions; a method whose probe yields nothing falls through to the
next. -/

/-- The fixed port → service-label map (wol_caster.py:678–687), in dict
insertion order. -/
def service_ports : List (Nat × String) :=
  [(22, "SSH"), (23, "Telnet"), (80, "HTTP"), (443, "HTTPS"),
   (3389, "RDP"), (5900, "VNC"), (8080, "HTTP-Alt"), (8443, "HTTPS-Alt")]

/-- Ultimate fallback (wol_caster.py:714): `f".{ip.split('.')[-1]}"`. -/
def ident_fallback (ip : String) : String := "." ++ lastOctet ip

/-- Method 5 (wol_caster.py:702–711): MAC vendor label. -/
def ident_m5 (env : ScanEnv) (ip : String) : String :=
  match env.macOf ip with
  | some mac =>
      if !(mac == "") then
        match get_mac_vendor env.ouiLines mac with
        | some vendor =>
            if !(vendor == "") then vendor ++ "-" ++ lastOctet ip
            else ident_fallback ip
        | none => ident_fallback ip
      else ident_fallback ip
  | none => ident_fallback ip

/-- Method 4 (wol_caster.py:675–700): first open service port. -/
def ident_m4 (env : ScanEnv) (ip : String) : String :=
  match service_ports.find? (fun ps => env.portOpenId ip ps.1) with
  | some ps => ps.2 ++ "-" ++ lastOctet ip
  | none => ident_m5 env ip

/-- Method 3 (wol_caster.py:666–673): mDNS/Bonjour name, macOS only. -/
def ident_m3 (env : ScanEnv) (ip : String) : String :=
  if env.isDarwin then
    match env.appleName ip with
    | some name => if !(name == "") then name else ident_m4 env ip
    | none => ident_m4 env ip
  else ident_m4 env ip

/-- Method 2 (wol_caster.py:657–664): NetBIOS name via smbutil, macOS
only. -/
def ident_m2 (env : ScanEnv) (ip : String) : String :=
  if env.isDarwin then
    match env.netbiosName ip with
    | some name => if !(name == "") then name else ident_m3 env ip
    | none => ident_m3 env ip
  else ident_m3 env ip

/-- `get_device_identifier(ip)` — Method 1 (reverse DNS, accepted only if
truthy, different from the IP literal and longer than 2), then the
fall-through chain. -/
def get_device_identifier (env : ScanEnv) (ip : String) : String :=
  match env.revDns ip with
  | some hostname =>
      if !(hostname == "") && !(hostname == ip) && decide (hostname.length > 2) then hostname
      else ident_m2 env ip
  | none => ident_m2 env ip

/-! ## §4.2 Scan Scheduler — per-host record construction

`scan_ip` is the (identical) inner closure of both
`scan_network_for_devices_live` (wol_caster.py:737–790) and
`scan_network_for_devices` (wol_caster.py:856–914). Futures complete and
are consumed in submission order, chunk by chunk, so the resulting value
is the in-order fold below; timing, callbacks and progress reporting are
effects outside the embedding. -/

/-- The per-host record of the GUI batch/live scanners
(wol_caster.py:737–790). -/
def scan_ip (env : ScanEnv) (known_devices : List Device) (ip : String) : Device :=
  let status0 := check_device_status env ip
  let isUp := status0 == "online" || status0 == "standby"
  let hostname : Option String := if isUp then some (get_device_identifier env ip) else none
  let mac_address : Option String := if isUp then env.macOf ip else none
  let known_device := known_devices.find? (fun known => known.ip == ip)
  let statusHostname : String × Option String :=
    if isUp then
      (status0,
        if truthyS hostname then hostname
        else match known_device with
             | some k => k.hostname
             | none => some ("." ++ lastOctet ip))
    else if known_devices.isEmpty then ("hidden", none)
    else match known_device with
         | some k => (status0, k.hostname)
         | none => ("hidden", none)
  { ip := ip
    hostname := statusHostname.2
    mac := if truthyS mac_address then mac_address
           else match known_device with | some k => k.mac | none => none
    status := statusHostname.1
    pingable := statusHostname.1 == "online"
    last_seen := if isUp then env.now
                 else match known_device with | some k => k.last_seen | none => 0 }

/-- `scan_single_ip(ip)` (wol_caster.py:3559–3588), the CLI probe: no
known-device store is consulted; every host that is neither online nor in
standby is classified `"hidden"`. -/
def scan_single_ip (env : ScanEnv) (ip : String) : Device :=
  let status0 := check_device_status env ip
  let isUp := status0 == "online" || status0 == "standby"
  let hostname : Option String := if isUp then some (get_device_identifier env ip) else none
  let mac_address : Option String := if isUp then env.macOf ip else none
  let statusHostname : String × Option String :=
    if isUp then
      (status0, if truthyS hostname then hostname else some ("." ++ lastOctet ip))
    else ("hidden", none)
  { ip := ip
    hostname := statusHostname.2
    mac := mac_address
    status := statusHostname.1
    pingable := statusHostname.1 == "online"
    last_seen := if isUp then env.now else 0 }

/-- `existing_device.update(device)` where `device` carries exactly the six
scan keys (wol_caster.py:813–815): those six overwrite, every other key of
`existing_device` survives. -/
def dict_update_scan (existing d : Device) : Device :=
  { existing with
    ip := d.ip
    hostname := d.hostname
    mac := d.mac
    status := d.status
    pingable := d.pingable
    last_seen := d.last_seen }

/-- Update the first record with a matching IP in place, else append
(wol_caster.py:806–818). -/
def insert_scan_result : List Device → Device → List Device
  | [], d => [d]
  | e :: rest, d =>
      if e.ip == d.ip then dict_update_scan e d :: rest
      else e :: insert_scan_result rest d

/-- One step of the result-consumption loop: hidden records are dropped,
all others are merged into the accumulated list
(wol_caster.py:805–818, 928–941). -/
def accumulate_device (devices : List Device) (d : Device) : List Device :=
  if d.status == "hidden" then devices else insert_scan_result devices d

/-- `scan_network_for_devices(interface_info, ..., known_devices)`
(wol_caster.py:839–957): seed with the known devices, probe every host of
the subnet in order, accumulate non-hidden results; any top-level
exception (in particular an unparsable subnet) yields `[]`. -/
def scan_network_for_devices (env : ScanEnv) (known_devices : List Device) : List Device :=
  match env.hostsOf with
  | none => []
  | some host_ips =>
      (host_ips.map (scan_ip env known_devices)).foldl accumulate_device known_devices

/-- `scan_network_for_devices_live` (wol_caster.py:720–837): identical
accumulation to the batch scanner; the per-device live callback is an
effect outside the embedding. -/
def scan_network_for_devices_live (env : ScanEnv) (known_devices : List Device) : List Device :=
  match env.hostsOf with
  | none => []
  | some host_ips =>
      (host_ips.map (scan_ip env known_devices)).foldl accumulate_device known_devices

/-- `scan_network_for_devices_with_progress` (wol_caster.py:3476–3545):
no seeding, probes via `scan_single_ip`, appends non-hidden results; any
top-level exception yields `[]`. -/
def scan_network_for_devices_with_progress (env : ScanEnv) : List Device :=
  match env.hostsOf with
  | none => []
  | some host_ips =>
      (host_ips.map (scan_single_ip env)).foldl
        (fun devices d => if d.status == "hidden" then devices else devices ++ [d]) []

/-! ## Persistence — `WOLCasterGUI.update_known_devices`
(wol_caster.py:1148–1170) -/

/-- The persisted record built for one non-hidden device: the five stored
keys, plus `vendor` when the device has a truthy MAC whose vendor lookup
succeeds with something other than `"Unknown"`. -/
def to_known_device (ouiLines : List String) (device : Device) : Device :=
  let base : Device :=
    { ip := device.ip, hostname := device.hostname, mac := device.mac,
      last_seen := device.last_seen, status := device.status }
  if truthyS device.mac then
    match get_mac_vendor ouiLines ((device.mac).getD "") with
    | some vendor =>
        if !(vendor == "") && !(vendor == "Unknown") then { base with vendor := some vendor }
        else base
    | none => base
  else base

/-- `update_known_devices(interface_name, devices)`: rebuild the stored
list, skipping every hidden record. -/
def update_known_devices (ouiLines : List String) (devices : List Device) : List Device :=
  devices.filterMap (fun device =>
    if device.status == "hidden" then none
    else some (to_known_device ouiLines device))

/-! ## §4.7 Known-Device Merge Engine — `WOLCasterGUI.update_tree_view`
(wol_caster.py:1622–1727) -/

/-- The logical sub-network of an IP (wol_caster.py:1636–1645 and
1700–1708): fixed prefix tests, falling back to the interface subnet. -/
def networkKey (ip subnet : String) : String :=
  if startsWithStr "192.168.0." ip then "192.168.0.0/24"
  else if startsWithStr "134.124.230." ip then "134.124.230.0/24"
  else if startsWithStr "134.124.231." ip then "134.124.231.0/24"
  else subnet

/-- The smart-merge overlay (wol_caster.py:1658–1670): start from a copy of
the fresh record; take the stored `hostname`/`mac`/`vendor` only where the
fresh value is falsy and the stored one truthy; stamp `stored_last_seen`
when the stored timestamp is truthy. -/
def merge_with_stored (device : Device) (stored_device : Option Device) : Device :=
  match stored_device with
  | none => device
  | some stored =>
      let m1 := if !truthyS device.hostname && truthyS stored.hostname then
                  { device with hostname := stored.hostname } else device
      let m2 := if !truthyS m1.mac && truthyS stored.mac then
                  { m1 with mac := stored.mac } else m1
      let m3 := if !truthyS m2.vendor && truthyS stored.vendor then
                  { m2 with vendor := stored.vendor } else m2
      if truthyT stored.last_seen then { m3 with stored_last_seen := some stored.last_seen }
      else m3

/-- The network-context validation (wol_caster.py:1672–1685): outside the
interface's own subnet, a record not pingable in the current scan is
forced offline. -/
def apply_network_context (subnet network_key : String) (d : Device) : Device :=
  if !(network_key == subnet) then
    if !d.pingable then
      { d with status := "offline", network_context := some "discovered_offline" }
    else { d with network_context := some "discovered_online" }
  else { d with network_context := some "primary" }

/-- The full per-fresh-device merge step (wol_caster.py:1650–1687). -/
def merge_one (subnet : String) (known_devices : List Device) (device : Device) : Device :=
  apply_network_context subnet (networkKey device.ip subnet)
    (merge_with_stored device (known_devices.find? (fun known => known.ip == device.ip)))

/-- `network_groups`: an insertion-ordered dict from network key to device
list. -/
abbrev Groups := List (String × List Device)

/-- `network_groups[key].append(d)`, creating the key on first use. -/
def add_to_group : Groups → String → Device → Groups
  | [], key, d => [(key, [d])]
  | (k, ds) :: rest, key, d =>
      if k == key then (k, ds ++ [d]) :: rest
      else (k, ds) :: add_to_group rest key d

/-- `network_groups.get(key, [])`. -/
def group_devices (gs : Groups) (key : String) : List Device :=
  match gs.find? (fun g => g.1 == key) with
  | some g => g.2
  | none => []

/-- First merge loop (wol_caster.py:1629–1687): merge each fresh device
(skipping records with a falsy IP) and file it under its network key. -/
def process_fresh (subnet : String) (known_devices : List Device) (gs : Groups) :
    List Device → Groups
  | [] => gs
  | device :: rest =>
      if device.ip == "" then process_fresh subnet known_devices gs rest
      else process_fresh subnet known_devices
        (add_to_group gs (networkKey device.ip subnet) (merge_one subnet known_devices device))
        rest

/-- Second merge loop (wol_caster.py:1689–1721): synthesize an offline
record for every stored device whose IP is not already present in its
network group. -/
def process_known (subnet : String) (gs : Groups) : List Device → Groups
  | [] => gs
  | known :: rest =>
      if known.ip == "" then process_known subnet gs rest
      else
        let key := networkKey known.ip subnet
        if (group_devices gs key).any (fun d => d.ip == known.ip) then
          process_known subnet gs rest
        else
          process_known subnet
            (add_to_group gs key { known with status := "offline", current_scan := some false })
            rest

/-- Flatten the groups in key-insertion order (wol_caster.py:1723–1727). -/
def flatten_groups (gs : Groups) : List Device := (gs.map Prod.snd).flatten

/-- The complete merge of one interface's fresh scan results with its
persisted history. -/
def update_tree_merge (subnet : String) (fresh known_devices : List Device) : List Device :=
  flatten_groups (process_known subnet (process_fresh subnet known_devices [] fresh) known_devices)

/-! ## Auxiliary definitions for the claims -/

/-- An environment in which every probe fails: ping and TCP connects fail,
no name resolution, no neighbor-cache entry, no parsable subnet. -/
def deadEnv : ScanEnv :=
  { isDarwin := false
    ping := fun _ => false
    portOpenStatus := fun _ _ => false
    revDns := fun _ => none
    netbiosName := fun _ => none
    appleName := fun _ => none
    portOpenId := fun _ _ => false
    macOf := fun _ => none
    ouiLines := []
    now := 1000
    hostsOf := none }

/-- The final per-host status claim C3 describes, as a function of the
probe outcomes and of whether the IP has a prior record in the
known-device store. -/
def claimed_status (ping anyPortOpen hasPriorRecord : Bool) : String :=
  if ping then "online"
  else if anyPortOpen then "standby"
  else if hasPriorRecord then "offline" else "hidden"

/-- A prior record for `192.168.0.7` as the store would hold it. -/
def priorRecord : Device :=
  { ip := "192.168.0.7", hostname := some "printer", mac := none, vendor := none,
    status := "offline", pingable := false, last_seen := 5 }

/-- The spec's concrete instance for C2: a persisted NAS record with
hostname, MAC and vendor. -/
def nasStored : Device :=
  { ip := "192.168.0.50", hostname := some "nas.local",
    mac := some "AA:BB:CC:DD:EE:FF", vendor := some "Synology",
    status := "offline", pingable := false, last_seen := 500 }

/-- The fresh probe for the NAS IP that rediscovered nothing. -/
def nasFresh : Device :=
  { ip := "192.168.0.50", hostname := none, mac := none, vendor := none,
    status := "offline", pingable := false, last_seen := 0 }

/-- The spec's concrete instance for C4: a device in `134.124.230.0/24`
seen through an interface whose primary subnet is `192.168.0.0/24`,
marked online by an earlier scan but not pingable now. -/
def c4Device : Device :=
  { ip := "134.124.230.42", hostname := some "printer", mac := none, vendor := none,
    status := "online", pingable := false, last_seen := 7 }

/-- The vendor a database line would contribute: the stripped second
tab-field, when present and non-empty. -/
def line_vendor (line0 : String) : Option String :=
  match splitChar '\t' (stripWS line0).data [] with
  | _ :: p1 :: _ =>
      let vendor := stripWS (String.mk p1)
      if vendor == "" then none else some vendor
  | _ => none

/-- A database line matches: stripped non-empty, contains the prefix as a
substring, and contributes a vendor. -/
def line_matches (dbPrefix line0 : String) : Bool :=
  !(stripWS line0 == "") && containsSub dbPrefix.data (stripWS line0).data
    && (line_vendor line0).isSome

/-- `":".join(mac.split(":")[:3]).upper()`. -/
def macPrefix_of (mac : String) : String :=
  upperStr (String.mk (joinSep ':' ((splitChar ':' mac.data []).take 3)))

/-- `macPrefix.replace(":", "").upper()`. -/
def dbPrefix_of (mac : String) : String := upperStr (stripColons (macPrefix_of mac))

/-- Step (a) of the identity chain: reverse DNS, accepted only if truthy,
different from the IP literal, and longer than 2. -/
def step_dns (env : ScanEnv) (ip : String) : Option String :=
  (env.revDns ip).bind (fun h =>
    if !(h == "") && !(h == ip) && decide (h.length > 2) then some h else none)

/-- Step (b): NetBIOS name, macOS only, accepted if truthy. -/
def step_netbios (env : ScanEnv) (ip : String) : Option String :=
  if env.isDarwin then
    (env.netbiosName ip).bind (fun n => if !(n == "") then some n else none)
  else none

/-- Step (c): mDNS/Bonjour name, macOS only, accepted if truthy. -/
def step_mdns (env : ScanEnv) (ip : String) : Option String :=
  if env.isDarwin then
    (env.appleName ip).bind (fun n => if !(n == "") then some n else none)
  else none

/-- Step (d): first open service port, label `"{service}-{lastOctet}"`. -/
def step_port (env : ScanEnv) (ip : String) : Option String :=
  (service_ports.find? (fun ps => env.portOpenId ip ps.1)).map
    (fun ps => ps.2 ++ "-" ++ lastOctet ip)

/-- Step (e): MAC vendor, label `"{vendor}-{lastOctet}"`. -/
def step_vendor (env : ScanEnv) (ip : String) : Option String :=
  (env.macOf ip).bind (fun mac =>
    if !(mac == "") then
      (get_mac_vendor env.ouiLines mac).bind (fun v =>
        if !(v == "") then some (v ++ "-" ++ lastOctet ip) else none)
    else none)

/-- What merging a device list with an identical copy of itself does to
one record: the overlay leaves `hostname`/`mac`/`vendor` alone (the fresh
and stored values coincide), stamps `stored_last_seen` when the timestamp
is truthy, and then applies the network-context step. -/
def self_merge (subnet : String) (d : Device) : Device :=
  apply_network_context subnet (networkKey d.ip subnet)
    (if truthyT d.last_seen then { d with stored_last_seen := some d.last_seen } else d)

/-- A concrete record for the C6 counterexample. -/
def cexMergeDevice : Device :=
  { ip := "10.0.0.5", hostname := some "host-a", mac := some "AA:BB:CC:DD:EE:01",
    vendor := none, status := "online", pingable := true, last_seen := 100 }

end WolCaster

namespace WolCaster

/-! # Claim C1 — the MAC padding rule

`pad_mac_address` strips separators and pads/truncates to 12 characters,
but it does **not** change letter case: the uppercasing in the spec's
example is performed by its caller `get_mac_address` (wol_caster.py:524)
before padding. So `pad("0:3e:e1:b7:57:54")` is `"00:3e:e1:b7:57:54"`,
not `"00:3E:E1:B7:57:54"`. -/

/-- C1 (counterexample): applied to the lower-case spec input, the padding
function yields `"00:3e:e1:b7:57:54"`, not the claimed
`"00:3E:E1:B7:57:54"`. -/
theorem C1_pad_counterexample :
    pad_mac_address "0:3e:e1:b7:57:54" = "00:3e:e1:b7:57:54"
    ∧ pad_mac_address "0:3e:e1:b7:57:54" ≠ "00:3E:E1:B7:57:54" := by
  constructor
  · decide
  · decide

/-- C1 (amended): for every non-empty input, `pad_mac_address` strips the
separators, left-pads with `'0'` to 12 characters or truncates to the
first 12, and regroups in colon-separated pairs — preserving character
case. The spec's example holds after the caller's normalization
(`.upper().replace('-', ':')`); `pad("AA:BB:CC:DD:EE:FF")` is unchanged;
a 13-hex-character input is truncated to 12 before reformatting. -/
theorem C1_pad_amended :
    (∀ mac : String, mac ≠ "" →
      pad_mac_address mac = colonFormat12 (String.mk (norm12 (stripSeparators mac).data)))
    ∧ pad_mac_address (normalizeMacText "0:3e:e1:b7:57:54") = "00:3E:E1:B7:57:54"
    ∧ pad_mac_address "AA:BB:CC:DD:EE:FF" = "AA:BB:CC:DD:EE:FF"
    ∧ pad_mac_address "00:11:22:33:44:55:6" = "00:11:22:33:44:55" := by
  refine ⟨?_, by decide, by decide, by decide⟩
  intro mac h
  have hb : (mac == "") = false := by simpa using h
  unfold pad_mac_address norm12
  simp only [hb, Bool.false_eq_true, if_false]
  split_ifs with h1 h2 h3 <;>
    first
      | rfl
      | (exfalso; simp_all; omega)
      | (simp_all; try rfl)

/-- C1 (witness): the amended rule evaluated at `"AA:BB:CC:DD:EE:FF"`. -/
theorem C1_pad_witness :
    pad_mac_address "AA:BB:CC:DD:EE:FF" =
      colonFormat12 (String.mk (norm12 (stripSeparators "AA:BB:CC:DD:EE:FF").data)) :=
  C1_pad_amended.1 "AA:BB:CC:DD:EE:FF" (by decide)

/-! ## Field lemmas for the merge overlay and the network-context step -/

lemma merge_with_stored_none (d : Device) : merge_with_stored d none = d := rfl

lemma merge_with_stored_hostname (d s : Device) :
    (merge_with_stored d (some s)).hostname =
      if !truthyS d.hostname && truthyS s.hostname then s.hostname else d.hostname := by
  simp only [merge_with_stored]
  split_ifs <;> rfl

lemma merge_with_stored_mac (d s : Device) :
    (merge_with_stored d (some s)).mac =
      if !truthyS d.mac && truthyS s.mac then s.mac else d.mac := by
  simp only [merge_with_stored]
  split_ifs <;> rfl

lemma merge_with_stored_vendor (d s : Device) :
    (merge_with_stored d (some s)).vendor =
      if !truthyS d.vendor && truthyS s.vendor then s.vendor else d.vendor := by
  simp only [merge_with_stored]
  split_ifs <;> rfl

lemma merge_with_stored_ip (d : Device) (s : Option Device) :
    (merge_with_stored d s).ip = d.ip := by
  cases s <;> simp only [merge_with_stored] <;> split_ifs <;> rfl

lemma merge_with_stored_status (d : Device) (s : Option Device) :
    (merge_with_stored d s).status = d.status := by
  cases s <;> simp only [merge_with_stored] <;> split_ifs <;> rfl

lemma merge_with_stored_pingable (d : Device) (s : Option Device) :
    (merge_with_stored d s).pingable = d.pingable := by
  cases s <;> simp only [merge_with_stored] <;> split_ifs <;> rfl

lemma merge_with_stored_last_seen (d : Device) (s : Option Device) :
    (merge_with_stored d s).last_seen = d.last_seen := by
  cases s <;> simp only [merge_with_stored] <;> split_ifs <;> rfl

lemma apply_network_context_ip (subnet key : String) (d : Device) :
    (apply_network_context subnet key d).ip = d.ip := by
  simp only [apply_network_context]; split_ifs <;> rfl

lemma apply_network_context_hostname (subnet key : String) (d : Device) :
    (apply_network_context subnet key d).hostname = d.hostname := by
  simp only [apply_network_context]; split_ifs <;> rfl

lemma apply_network_context_mac (subnet key : String) (d : Device) :
    (apply_network_context subnet key d).mac = d.mac := by
  simp only [apply_network_context]; split_ifs <;> rfl

lemma apply_network_context_vendor (subnet key : String) (d : Device) :
    (apply_network_context subnet key d).vendor = d.vendor := by
  simp only [apply_network_context]; split_ifs <;> rfl

lemma apply_network_context_pingable (subnet key : String) (d : Device) :
    (apply_network_context subnet key d).pingable = d.pingable := by
  simp only [apply_network_context]; split_ifs <;> rfl

lemma apply_network_context_last_seen (subnet key : String) (d : Device) :
    (apply_network_context subnet key d).last_seen = d.last_seen := by
  simp only [apply_network_context]; split_ifs <;> rfl

lemma apply_network_context_status (subnet key : String) (d : Device) :
    (apply_network_context subnet key d).status =
      if !(key == subnet) && !d.pingable then "offline" else d.status := by
  simp only [apply_network_context]; split_ifs <;> simp_all

lemma apply_network_context_context (subnet key : String) (d : Device) :
    (apply_network_context subnet key d).network_context =
      some (if !(key == subnet) then
              (if !d.pingable then "discovered_offline" else "discovered_online")
            else "primary") := by
  simp only [apply_network_context]; split_ifs <;> simp_all

/-! # Claim C2 — the hard-earned-data invariant

The merge overlay (wol_caster.py:1658–1670) takes the stored
`hostname`/`mac`/`vendor` exactly where the fresh value is empty and the
stored one is not, and the network-context step touches neither field, so
a non-empty persisted value survives a probe that carried an empty one. -/

/-- C2: if the persisted record found for the fresh device's IP carries a
non-empty `hostname`/`mac`/`vendor` and the fresh probe's value for that
field is empty, the merged record retains the persisted value. -/
theorem C2_hard_earned_data (subnet : String) (known_devices : List Device)
    (fresh stored : Device)
    (hfind : known_devices.find? (fun known => known.ip == fresh.ip) = some stored) :
    (truthyS fresh.hostname = false → truthyS stored.hostname = true →
      (merge_one subnet known_devices fresh).hostname = stored.hostname)
    ∧ (truthyS fresh.mac = false → truthyS stored.mac = true →
      (merge_one subnet known_devices fresh).mac = stored.mac)
    ∧ (truthyS fresh.vendor = false → truthyS stored.vendor = true →
      (merge_one subnet known_devices fresh).vendor = stored.vendor) := by
  unfold merge_one
  rw [hfind]
  refine ⟨fun hf hs => ?_, fun hf hs => ?_, fun hf hs => ?_⟩
  · rw [apply_network_context_hostname, merge_with_stored_hostname, hf, hs]; rfl
  · rw [apply_network_context_mac, merge_with_stored_mac, hf, hs]; rfl
  · rw [apply_network_context_vendor, merge_with_stored_vendor, hf, hs]; rfl

/-- C2 (witness): merging the persisted NAS record with the empty fresh
probe retains all three persisted fields. -/
theorem C2_witness :
    (merge_one "192.168.0.0/24" [nasStored] nasFresh).hostname = some "nas.local"
    ∧ (merge_one "192.168.0.0/24" [nasStored] nasFresh).mac = some "AA:BB:CC:DD:EE:FF"
    ∧ (merge_one "192.168.0.0/24" [nasStored] nasFresh).vendor = some "Synology" := by
  have h := C2_hard_earned_data "192.168.0.0/24" [nasStored] nasFresh nasStored (by decide)
  exact ⟨h.1 (by decide) (by decide), h.2.1 (by decide) (by decide), h.2.2 (by decide) (by decide)⟩

/-! # Claim C4 — cross-subnet status downgrade -/

/-- C4: for a merged device whose logical sub-network differs from the
interface's primary subnet, a record not pingable in the current scan is
emitted with status forced to `"offline"` and context
`"discovered_offline"`; a pingable one keeps its status and gets context
`"discovered_online"` — regardless of what any stored record said. -/
theorem C4_discovered_context (subnet : String) (known_devices : List Device) (device : Device)
    (hkey : networkKey device.ip subnet ≠ subnet) :
    (device.pingable = false →
      (merge_one subnet known_devices device).status = "offline"
      ∧ (merge_one subnet known_devices device).network_context = some "discovered_offline")
    ∧ (device.pingable = true →
      (merge_one subnet known_devices device).status = device.status
      ∧ (merge_one subnet known_devices device).network_context = some "discovered_online") := by
  have hb : (networkKey device.ip subnet == subnet) = false := by
    simpa using hkey
  unfold merge_one
  rw [apply_network_context_status, apply_network_context_context,
    merge_with_stored_status, merge_with_stored_pingable, hb]
  constructor
  · intro hp; rw [hp]; exact ⟨rfl, rfl⟩
  · intro hp; rw [hp]; exact ⟨rfl, rfl⟩

/-- C4 (witness): the earlier-online, non-pingable cross-subnet device is
emitted as `status = "offline"`, `network_context = "discovered_offline"`. -/
theorem C4_witness :
    c4Device.status = "online"
    ∧ (merge_one "192.168.0.0/24" [] c4Device).status = "offline"
    ∧ (merge_one "192.168.0.0/24" [] c4Device).network_context = some "discovered_offline" := by
  have h := (C4_discovered_context "192.168.0.0/24" [] c4Device (by decide)).1 rfl
  exact ⟨rfl, h.1, h.2⟩

/-! # Claim C3 — per-host status classification

`check_device_status` and the GUI scanners' per-host closure follow the
claimed state machine, but the CLI probe `scan_single_ip`
(wol_caster.py:3559–3588) consults no known-device store: it classifies
every host that is neither online nor in standby as `"hidden"`, even when
the CLI's store holds a prior record for that IP. -/

/-- C3 (counterexample): the CLI probe ignores the store. With a store
holding a prior record for `192.168.0.7` and every probe failing, the
claim requires `"offline"`, but `scan_single_ip` classifies the host
`"hidden"`. -/
theorem C3_counterexample :
    ([priorRecord].any (fun d => d.ip == "192.168.0.7") = true)
    ∧ (scan_single_ip deadEnv "192.168.0.7").status = "hidden"
    ∧ claimed_status false false true = "offline"
    ∧ (scan_single_ip deadEnv "192.168.0.7").status ≠ claimed_status false false true := by
  refine ⟨by decide, by decide, by decide, by decide⟩

/-- C3 (amended): a successful ping yields `"online"`; otherwise a
successful TCP connect over `{80, 443, 22, 23, 3389, 5900}` yields
`"standby"`; otherwise `check_device_status` yields `"offline"` and the
batch/live scanners' per-host record is `"offline"` when the IP has a
prior record in the known-devices list supplied to the scan and
`"hidden"` otherwise — while the CLI probe `scan_single_ip` consults no
store and classifies every such host `"hidden"`. -/
theorem C3_status_amended (env : ScanEnv) (known_devices : List Device) (ip : String) :
    (env.ping ip = true → check_device_status env ip = "online")
    ∧ (env.ping ip = false →
        standby_ports.any (fun port => env.portOpenStatus ip port) = true →
        check_device_status env ip = "standby")
    ∧ (env.ping ip = false →
        standby_ports.any (fun port => env.portOpenStatus ip port) = false →
        check_device_status env ip = "offline"
        ∧ (scan_ip env known_devices ip).status =
            (if (known_devices.find? (fun known => known.ip == ip)).isSome
             then "offline" else "hidden")
        ∧ (scan_single_ip env ip).status = "hidden") := by
  refine ⟨fun hp => ?_, fun hp hport => ?_, fun hp hport => ?_⟩
  · simp [check_device_status, hp]
  · simp [check_device_status, hp, hport]
  · have hstat : check_device_status env ip = "offline" := by
      simp [check_device_status, hp, hport]
    refine ⟨hstat, ?_, ?_⟩
    · simp only [scan_ip, hstat]
      cases hfind : known_devices.find? (fun known => known.ip == ip) with
      | none =>
          cases hemp : known_devices with
          | nil => simp
          | cons a l => rw [← hemp]; simp [hfind, hemp]
      | some k =>
          have hne : known_devices.isEmpty = false := by
            cases known_devices with
            | nil => simp at hfind
            | cons a l => rfl
          simp [hfind, hne]
    · simp [scan_single_ip, hstat]

/-- C3 (witness): the amended classification evaluated in the all-probes-
fail environment, with a store holding a prior record for the probed IP:
`check_device_status` says `"offline"`, the GUI scanner record is
`"offline"` (the store has the IP), the CLI probe says `"hidden"`. -/
theorem C3_witness :
    check_device_status deadEnv "192.168.0.7" = "offline"
    ∧ (scan_ip deadEnv [priorRecord] "192.168.0.7").status =
        (if (([priorRecord]).find? (fun known => known.ip == "192.168.0.7")).isSome
         then "offline" else "hidden")
    ∧ (scan_single_ip deadEnv "192.168.0.7").status = "hidden" :=
  (C3_status_amended deadEnv [priorRecord] "192.168.0.7").2.2 rfl rfl

/-! # Claim C5 — MAC vendor lookup

`get_mac_vendor` searches the OUI database lines, then the hardcoded
table — but when both miss it returns Python `None` (wol_caster.py:640),
never the string `"unknown"`. -/

lemma oui_db_search_eq (p : String) (lines : List String) :
    oui_db_search p lines =
      (lines.find? (fun line => line_matches p line)).bind line_vendor := by
  induction lines with
  | nil => rfl
  | cons l rest ih =>
      by_cases hc : (!(stripWS l == "") && containsSub p.data (stripWS l).data) = true
      · rcases hsp : splitChar '\t' (stripWS l).data [] with _ | ⟨a, _ | ⟨b, tl⟩⟩
        · have hm : line_matches p l = false := by
            simp [line_matches, line_vendor, hsp]
          simp [oui_db_search, hc, hsp, List.find?, hm, ih]
        · have hm : line_matches p l = false := by
            simp [line_matches, line_vendor, hsp]
          simp [oui_db_search, hc, hsp, List.find?, hm, ih]
        · by_cases hv : (stripWS (String.mk b) == "") = true
          · have hm : line_matches p l = false := by
              simp [line_matches, line_vendor, hsp, hv]
            simp [oui_db_search, hc, hsp, hv, List.find?, hm, ih]
          · have hm : line_matches p l = true := by
              simp [line_matches, line_vendor, hsp, hv, hc]
            simp [oui_db_search, hc, hsp, hv, List.find?, hm, line_vendor]
            simpa using hv
      · have hcf : (!(stripWS l == "") && containsSub p.data (stripWS l).data) = false := by
          simpa using hc
        have hm : line_matches p l = false := by
          simp [line_matches, hcf]
        simp [oui_db_search, hcf, List.find?, hm, ih]

/-- C5 (counterexample): for a MAC whose OUI is in neither the database
nor the hardcoded table, `get_mac_vendor` returns `none` (Python `None`),
not the claimed string `"unknown"`. -/
theorem C5_counterexample :
    get_mac_vendor [] "AA:AA:AA:00:00:00" = none
    ∧ get_mac_vendor [] "AA:AA:AA:00:00:00" ≠ some "unknown" := by
  refine ⟨by decide, by decide⟩

/-- C5 (amended): for a well-formed MAC, vendor lookup returns the vendor
field of the first database line containing the 6-hex OUI prefix; on miss
it consults the hardcoded table; and when both fail it returns `None` (no
vendor), not the string `"unknown"`. -/
theorem C5_vendor_amended (ouiLines : List String) (mac : String)
    (hne : mac ≠ "") (hgroups : ¬ (splitChar ':' mac.data []).length < 3) :
    (get_mac_vendor ouiLines mac =
      (match (ouiLines.find? (fun line => line_matches (dbPrefix_of mac) line)).bind line_vendor with
       | some vendor => some vendor
       | none => (common_vendors.find? (fun kv => kv.1 == macPrefix_of mac)).map Prod.snd))
    ∧ ((ouiLines.find? (fun line => line_matches (dbPrefix_of mac) line)).bind line_vendor = none →
       common_vendors.find? (fun kv => kv.1 == macPrefix_of mac) = none →
       get_mac_vendor ouiLines mac = none) := by
  have hb : (mac == "") = false := by simpa using hne
  have heq : get_mac_vendor ouiLines mac =
      (match (ouiLines.find? (fun line => line_matches (dbPrefix_of mac) line)).bind line_vendor with
       | some vendor => some vendor
       | none => (common_vendors.find? (fun kv => kv.1 == macPrefix_of mac)).map Prod.snd) := by
    simp only [get_mac_vendor, hb, Bool.false_eq_true, if_false, if_neg hgroups,
      oui_db_search_eq, macPrefix_of, dbPrefix_of]
    cases (ouiLines.find? (fun line => line_matches
        (upperStr (stripColons (upperStr (String.mk (joinSep ':'
          ((splitChar ':' mac.data []).take 3)))))) line)).bind line_vendor with
    | none =>
        cases common_vendors.find? (fun kv =>
            kv.1 == upperStr (String.mk (joinSep ':' ((splitChar ':' mac.data []).take 3)))) with
        | none => rfl
        | some kv => rfl
    | some v => rfl
  refine ⟨heq, fun h1 h2 => ?_⟩
  rw [heq, h1, h2]
  rfl

/-- C5 (witness): a database hit — the line `"00AABB\tAcme Corp"` resolves
the OUI `00:AA:BB` to `"Acme Corp"`. -/
theorem C5_witness :
    get_mac_vendor ["00AABB\tAcme Corp"] "00:AA:BB:01:02:03" = some "Acme Corp" := by
  have h := (C5_vendor_amended ["00AABB\tAcme Corp"] "00:AA:BB:01:02:03"
    (by decide) (by decide)).1
  rw [h]
  decide

/-! # Claim C7 — the identity-resolution chain

Each step of `get_device_identifier` is summarised as an `Option`-valued
step function; the resolver equals the first-success chain over them with
the `".{lastOctet}"` ultimate fallback, and is total by construction
(every probe exception is a `none` outcome). -/

lemma ident_m5_eq (env : ScanEnv) (ip : String) :
    ident_m5 env ip = (step_vendor env ip).getD ("." ++ lastOctet ip) := by
  simp only [ident_m5, step_vendor, ident_fallback]
  cases env.macOf ip with
  | none => rfl
  | some mac =>
      simp only [Option.some_bind]
      split_ifs with h
      · cases get_mac_vendor env.ouiLines mac with
        | none => rfl
        | some v =>
            simp only [Option.some_bind]
            split_ifs with hv <;> rfl
      · rfl

lemma ident_m4_eq (env : ScanEnv) (ip : String) :
    ident_m4 env ip =
      ((step_port env ip).or (step_vendor env ip)).getD ("." ++ lastOctet ip) := by
  simp only [ident_m4, step_port]
  cases service_ports.find? (fun ps => env.portOpenId ip ps.1) with
  | none => simpa [Option.or] using ident_m5_eq env ip
  | some ps => rfl

lemma ident_m3_eq (env : ScanEnv) (ip : String) :
    ident_m3 env ip =
      ((step_mdns env ip).or ((step_port env ip).or (step_vendor env ip))).getD
        ("." ++ lastOctet ip) := by
  simp only [ident_m3, step_mdns]
  by_cases hd : env.isDarwin = true
  · simp only [hd, if_true]
    cases env.appleName ip with
    | none => simpa [Option.or] using ident_m4_eq env ip
    | some n =>
        simp only [Option.some_bind]
        split_ifs with hn
        · rfl
        · simpa [Option.or] using ident_m4_eq env ip
  · have hd' : env.isDarwin = false := by simpa using hd
    simpa [hd', Option.or] using ident_m4_eq env ip

lemma ident_m2_eq (env : ScanEnv) (ip : String) :
    ident_m2 env ip =
      (((step_netbios env ip).or (step_mdns env ip)).or
        ((step_port env ip).or (step_vendor env ip))).getD ("." ++ lastOctet ip) := by
  simp only [ident_m2, step_netbios]
  by_cases hd : env.isDarwin = true
  · simp only [hd, if_true]
    cases env.netbiosName ip with
    | none => simpa [Option.or] using ident_m3_eq env ip
    | some n =>
        simp only [Option.some_bind]
        split_ifs with hn
        · rfl
        · simpa [Option.or] using ident_m3_eq env ip
  · have hd' : env.isDarwin = false := by simpa using hd
    simpa [hd', Option.or] using ident_m3_eq env ip

/-- C7: identity resolution is the ordered first-success chain
DNS → NetBIOS → mDNS → port fingerprint → MAC vendor over the step
functions, with ultimate fallback `".{lastOctet}"`; in particular, when
every step produces nothing the fallback is returned (the function is
total by construction, every probe exception being a `none` outcome). -/
theorem C7_identity_chain (env : ScanEnv) (ip : String) :
    (get_device_identifier env ip =
      ((((step_dns env ip).or (step_netbios env ip)).or (step_mdns env ip)).or
        ((step_port env ip).or (step_vendor env ip))).getD ("." ++ lastOctet ip))
    ∧ (step_dns env ip = none → step_netbios env ip = none → step_mdns env ip = none →
       step_port env ip = none → step_vendor env ip = none →
       get_device_identifier env ip = "." ++ lastOctet ip) := by
  have hmain : get_device_identifier env ip =
      ((((step_dns env ip).or (step_netbios env ip)).or (step_mdns env ip)).or
        ((step_port env ip).or (step_vendor env ip))).getD ("." ++ lastOctet ip) := by
    simp only [get_device_identifier, step_dns]
    cases env.revDns ip with
    | none => simpa [Option.or] using ident_m2_eq env ip
    | some h =>
        simp only [Option.some_bind]
        split_ifs with hcond
        · rfl
        · simpa [Option.or] using ident_m2_eq env ip
  refine ⟨hmain, fun h1 h2 h3 h4 h5 => ?_⟩
  rw [hmain, h1, h2, h3, h4, h5]
  rfl

/-- C7 (witness): in the all-probes-fail environment every step yields
nothing and resolution returns the ultimate fallback. -/
theorem C7_witness :
    get_device_identifier deadEnv "10.0.0.23" = "." ++ lastOctet "10.0.0.23" :=
  (C7_identity_chain deadEnv "10.0.0.23").2 rfl rfl rfl rfl rfl

/-! # Claim C8 — hidden devices are never surfaced or persisted -/

lemma dict_update_scan_status (existing d : Device) :
    (dict_update_scan existing d).status = d.status := rfl

lemma to_known_device_status (ouiLines : List String) (d : Device) :
    (to_known_device ouiLines d).status = d.status := by
  simp only [to_known_device]
  split_ifs with h
  · cases get_mac_vendor ouiLines (d.mac.getD "") with
    | none => rfl
    | some v =>
        dsimp only
        split_ifs <;> rfl
  · rfl

lemma insert_scan_result_not_hidden (d : Device) (hd : d.status ≠ "hidden") :
    ∀ devs : List Device, (∀ e ∈ devs, e.status ≠ "hidden") →
      ∀ x ∈ insert_scan_result devs d, x.status ≠ "hidden" := by
  intro devs
  induction devs with
  | nil =>
      intro _ x hx
      simp only [insert_scan_result, List.mem_singleton] at hx
      simpa [hx] using hd
  | cons e rest ih =>
      intro hall x hx
      simp only [insert_scan_result] at hx
      split_ifs at hx with h
      · rcases List.mem_cons.mp hx with hx | hx
        · simpa [hx, dict_update_scan_status] using hd
        · exact hall x (List.mem_cons_of_mem e hx)
      · rcases List.mem_cons.mp hx with hx | hx
        · exact hx ▸ hall e (List.mem_cons_self e rest)
        · exact ih (fun y hy => hall y (List.mem_cons_of_mem e hy)) x hx

lemma accumulate_device_not_hidden (devs : List Device) (d : Device)
    (hall : ∀ e ∈ devs, e.status ≠ "hidden") :
    ∀ x ∈ accumulate_device devs d, x.status ≠ "hidden" := by
  intro x hx
  by_cases h : d.status = "hidden"
  · have hb : (d.status == "hidden") = true := by simpa using h
    simp only [accumulate_device, hb, if_true] at hx
    exact hall x hx
  · have hb : (d.status == "hidden") = false := by simpa using h
    simp only [accumulate_device, hb, Bool.false_eq_true, if_false] at hx
    exact insert_scan_result_not_hidden d h devs hall x hx

lemma foldl_accumulate_not_hidden (results : List Device) :
    ∀ init : List Device, (∀ e ∈ init, e.status ≠ "hidden") →
      ∀ x ∈ results.foldl accumulate_device init, x.status ≠ "hidden" := by
  induction results with
  | nil => intro init hall x hx; exact hall x hx
  | cons d rest ih =>
      intro init hall x hx
      exact ih (accumulate_device init d) (accumulate_device_not_hidden init d hall) x hx

lemma foldl_append_not_hidden (results : List Device) :
    ∀ init : List Device, (∀ e ∈ init, e.status ≠ "hidden") →
      ∀ x ∈ results.foldl
        (fun devices d => if d.status == "hidden" then devices else devices ++ [d]) init,
        x.status ≠ "hidden" := by
  induction results with
  | nil => intro init hall x hx; exact hall x hx
  | cons d rest ih =>
      intro init hall x hx
      refine ih _ ?_ x hx
      intro e he
      by_cases h : d.status = "hidden"
      · simp only [h] at he; simpa using hall e (by simpa using he)
      · have hb : (d.status == "hidden") = false := by simpa using h
        simp only [hb, Bool.false_eq_true, if_false, List.mem_append,
          List.mem_singleton] at he
        rcases he with he | he
        · exact hall e he
        · simpa [he] using h

/-- C8: every record in the accumulated output of the batch, live, and
CLI progress scanners has a non-hidden status (given non-hidden seeds,
which `update_known_devices` guarantees for the persisted store), and the
persisted known-device list never contains a hidden record. -/
theorem C8_hidden_never_persisted (env : ScanEnv) (known_devices devices : List Device)
    (ouiLines : List String)
    (hknown : ∀ k ∈ known_devices, k.status ≠ "hidden") :
    (∀ d ∈ scan_network_for_devices env known_devices, d.status ≠ "hidden")
    ∧ (∀ d ∈ scan_network_for_devices_live env known_devices, d.status ≠ "hidden")
    ∧ (∀ d ∈ scan_network_for_devices_with_progress env, d.status ≠ "hidden")
    ∧ (∀ d ∈ update_known_devices ouiLines devices, d.status ≠ "hidden") := by
  refine ⟨?_, ?_, ?_, ?_⟩
  · intro d hd
    unfold scan_network_for_devices at hd
    cases henv : env.hostsOf with
    | none => rw [henv] at hd; simp at hd
    | some ips =>
        rw [henv] at hd
        exact foldl_accumulate_not_hidden _ known_devices hknown d hd
  · intro d hd
    unfold scan_network_for_devices_live at hd
    cases henv : env.hostsOf with
    | none => rw [henv] at hd; simp at hd
    | some ips =>
        rw [henv] at hd
        exact foldl_accumulate_not_hidden _ known_devices hknown d hd
  · intro d hd
    unfold scan_network_for_devices_with_progress at hd
    cases henv : env.hostsOf with
    | none => rw [henv] at hd; simp at hd
    | some ips =>
        rw [henv] at hd
        exact foldl_append_not_hidden _ [] (by simp) d hd
  · intro d hd
    simp only [update_known_devices, List.mem_filterMap] at hd
    obtain ⟨device, _, heq⟩ := hd
    by_cases h : device.status = "hidden"
    · simp [h] at heq
    · have hb : (device.status == "hidden") = false := by simpa using h
      simp only [hb, Bool.false_eq_true, if_false, Option.some.injEq] at heq
      rw [← heq, to_known_device_status]
      exact h

/-- C8 (witness): the store built from the non-hidden prior record
contains no hidden entry. -/
theorem C8_witness : (to_known_device [] priorRecord).status ≠ "hidden" :=
  (C8_hidden_never_persisted deadEnv [priorRecord] [priorRecord] [] (by decide)).2.2.2
    (to_known_device [] priorRecord) (by decide)

/-! # Claim C10 — scanners are total and return `[]` on a top-level error -/

/-- C10: when the subnet string cannot be parsed (the guarded body raises
at its first step), the batch, live, and CLI progress scanners all return
the empty list — discarding every seeded known-device record. -/
theorem C10_scan_total_on_error (env : ScanEnv) (known_devices : List Device)
    (herr : env.hostsOf = none) :
    scan_network_for_devices env known_devices = []
    ∧ scan_network_for_devices_live env known_devices = []
    ∧ scan_network_for_devices_with_progress env = [] := by
  unfold scan_network_for_devices scan_network_for_devices_live
    scan_network_for_devices_with_progress
  rw [herr]
  exact ⟨rfl, rfl, rfl⟩

/-- C10 (witness): the unparsable-subnet environment with a non-empty
seed list still yields `[]` from all three scanners. -/
theorem C10_witness :
    scan_network_for_devices deadEnv [priorRecord] = []
    ∧ scan_network_for_devices_live deadEnv [priorRecord] = []
    ∧ scan_network_for_devices_with_progress deadEnv = [] :=
  C10_scan_total_on_error deadEnv [priorRecord] rfl

/-! # Claim C6 — self-merge idempotence

Merging a device list with an identical copy of itself does *not* leave
records literally unchanged: the overlay stamps `stored_last_seen` from
the stored timestamp and every merged record gets a `network_context`
(with non-pingable cross-subnet records additionally downgraded to
offline). Up to exactly those bookkeeping fields the records are
preserved, one per original, and the second loop synthesizes nothing. -/

lemma merge_with_stored_self (d : Device) :
    merge_with_stored d (some d) =
      if truthyT d.last_seen then { d with stored_last_seen := some d.last_seen } else d := by
  simp only [merge_with_stored]
  have h1 : (!truthyS d.hostname && truthyS d.hostname) = false := by
    cases truthyS d.hostname <;> rfl
  rw [h1]
  simp only [Bool.false_eq_true, if_false]
  have h2 : (!truthyS d.mac && truthyS d.mac) = false := by
    cases truthyS d.mac <;> rfl
  rw [h2]
  simp only [Bool.false_eq_true, if_false]
  have h3 : (!truthyS d.vendor && truthyS d.vendor) = false := by
    cases truthyS d.vendor <;> rfl
  rw [h3]
  simp only [Bool.false_eq_true, if_false]

lemma merge_one_ip (subnet : String) (known_devices : List Device) (d : Device) :
    (merge_one subnet known_devices d).ip = d.ip := by
  unfold merge_one
  rw [apply_network_context_ip, merge_with_stored_ip]

lemma find_self (L : List Device) (hnodup : (L.map Device.ip).Nodup) :
    ∀ d ∈ L, L.find? (fun k => k.ip == d.ip) = some d := by
  induction L with
  | nil => intro d hd; simp at hd
  | cons e rest ih =>
      intro d hd
      by_cases he : (e.ip == d.ip) = true
      · rcases List.mem_cons.mp hd with hd | hd
        · simp [List.find?, hd]
        · exfalso
          have h1 : e.ip ∉ rest.map Device.ip := by
            have := hnodup
            simp only [List.map_cons, List.nodup_cons] at this
            exact this.1
          have h2 : d.ip ∈ rest.map Device.ip := List.mem_map_of_mem Device.ip hd
          rw [eq_of_beq he] at h1
          exact h1 h2
      · rcases List.mem_cons.mp hd with hd | hd
        · exfalso; exact he (by rw [hd]; exact beq_self_eq_true e.ip)
        · have hrest : (rest.map Device.ip).Nodup := by
            have := hnodup
            simp only [List.map_cons, List.nodup_cons] at this
            exact this.2
          simp only [List.find?, he]
          exact ih hrest d hd

lemma merge_one_self (subnet : String) (L : List Device)
    (hnodup : (L.map Device.ip).Nodup) (d : Device) (hd : d ∈ L) :
    merge_one subnet L d = self_merge subnet d := by
  unfold merge_one self_merge
  rw [find_self L hnodup d hd, merge_with_stored_self]

lemma flatten_groups_add (gs : Groups) (key : String) (d : Device) :
    (flatten_groups (add_to_group gs key d)).Perm (d :: flatten_groups gs) := by
  induction gs with
  | nil => simp [flatten_groups, add_to_group]
  | cons g rest ih =>
      obtain ⟨k, ds⟩ := g
      by_cases hk : (k == key) = true
      · simp only [add_to_group, hk, if_true, flatten_groups, List.map_cons, List.flatten_cons]
        exact (List.perm_append_singleton d ds).append_right _
      · simp only [add_to_group, hk, Bool.false_eq_true, if_false, flatten_groups,
          List.map_cons, List.flatten_cons]
        have h1 := List.Perm.append_left ds
          (show (((add_to_group rest key d).map Prod.snd).flatten).Perm
            (d :: (rest.map Prod.snd).flatten) from ih)
        exact h1.trans List.perm_middle

lemma process_fresh_perm (subnet : String) (known_devices : List Device) :
    ∀ (fresh : List Device) (gs : Groups), (∀ d ∈ fresh, d.ip ≠ "") →
      (flatten_groups (process_fresh subnet known_devices gs fresh)).Perm
        (fresh.map (merge_one subnet known_devices) ++ flatten_groups gs) := by
  intro fresh
  induction fresh with
  | nil => intro gs _; simp [process_fresh]
  | cons d rest ih =>
      intro gs hne
      have hdne : (d.ip == "") = false := by
        simpa using hne d (List.mem_cons_self d rest)
      simp only [process_fresh, hdne, Bool.false_eq_true, if_false]
      have h1 := ih (add_to_group gs (networkKey d.ip subnet) (merge_one subnet known_devices d))
        (fun x hx => hne x (List.mem_cons_of_mem d hx))
      have h2 := flatten_groups_add gs (networkKey d.ip subnet) (merge_one subnet known_devices d)
      exact h1.trans ((List.Perm.append_left
        (rest.map (merge_one subnet known_devices)) h2).trans List.perm_middle)

lemma group_devices_nil (key : String) : group_devices [] key = [] := rfl

lemma group_devices_cons (k : String) (ds : List Device) (rest : Groups) (key : String) :
    group_devices ((k, ds) :: rest) key =
      if (k == key) = true then ds else group_devices rest key := by
  by_cases hk : (k == key) = true
  · unfold group_devices
    rw [List.find?_cons_of_pos _ (by simpa using hk)]
    simp [hk]
  · unfold group_devices
    rw [List.find?_cons_of_neg _ (by simpa using hk)]
    simp [hk]

lemma mem_group_add_self (gs : Groups) (key : String) (d : Device) :
    d ∈ group_devices (add_to_group gs key d) key := by
  induction gs with
  | nil => simp [add_to_group, group_devices_cons]
  | cons g rest ih =>
      obtain ⟨k, ds⟩ := g
      by_cases hk : (k == key) = true
      · simp [add_to_group, hk, group_devices_cons]
      · simpa [add_to_group, hk, group_devices_cons] using ih

lemma mem_group_add_mono (gs : Groups) (key' : String) (x : Device) (key : String) (y : Device)
    (hy : y ∈ group_devices gs key) : y ∈ group_devices (add_to_group gs key' x) key := by
  induction gs with
  | nil => simp [group_devices_nil] at hy
  | cons g rest ih =>
      obtain ⟨k, ds⟩ := g
      by_cases hk' : (k == key') = true
      · by_cases hk : (k == key) = true
        · rw [group_devices_cons, if_pos hk] at hy
          simp only [add_to_group, hk', if_true]
          rw [group_devices_cons, if_pos hk]
          exact List.mem_append_left [x] hy
        · rw [group_devices_cons, if_neg hk] at hy
          simp only [add_to_group, hk', if_true]
          rw [group_devices_cons, if_neg hk]
          exact hy
      · by_cases hk : (k == key) = true
        · rw [group_devices_cons, if_pos hk] at hy
          simp only [add_to_group, hk', Bool.false_eq_true, if_false]
          rw [group_devices_cons, if_pos hk]
          exact hy
        · rw [group_devices_cons, if_neg hk] at hy
          simp only [add_to_group, hk', Bool.false_eq_true, if_false]
          rw [group_devices_cons, if_neg hk]
          exact ih hy

lemma mem_group_process_fresh_mono (subnet : String) (known_devices : List Device) :
    ∀ (l : List Device) (gs : Groups) (key : String) (y : Device),
      y ∈ group_devices gs key →
      y ∈ group_devices (process_fresh subnet known_devices gs l) key := by
  intro l
  induction l with
  | nil => intro gs key y hy; exact hy
  | cons d rest ih =>
      intro gs key y hy
      by_cases hd : (d.ip == "") = true
      · simp only [process_fresh, hd, if_true]
        exact ih gs key y hy
      · simp only [process_fresh, hd, Bool.false_eq_true, if_false]
        exact ih _ key y (mem_group_add_mono gs (networkKey d.ip subnet)
          (merge_one subnet known_devices d) key y hy)

lemma process_fresh_contains (subnet : String) (known_devices : List Device) :
    ∀ (l : List Device) (gs : Groups), ∀ d ∈ l, d.ip ≠ "" →
      ∃ m ∈ group_devices (process_fresh subnet known_devices gs l)
        (networkKey d.ip subnet), m.ip = d.ip := by
  intro l
  induction l with
  | nil => intro gs d hd; simp at hd
  | cons e rest ih =>
      intro gs d hd hne
      rcases List.mem_cons.mp hd with hd | hd
      · subst hd
        have hdne : (d.ip == "") = false := by simpa using hne
        simp only [process_fresh, hdne, Bool.false_eq_true, if_false]
        refine ⟨merge_one subnet known_devices d, ?_, merge_one_ip subnet known_devices d⟩
        exact mem_group_process_fresh_mono subnet known_devices rest _ _ _
          (mem_group_add_self gs (networkKey d.ip subnet) (merge_one subnet known_devices d))
      · by_cases he : (e.ip == "") = true
        · simp only [process_fresh, he, if_true]
          exact ih gs d hd hne
        · simp only [process_fresh, he, Bool.false_eq_true, if_false]
          exact ih _ d hd hne

lemma process_known_noop (subnet : String) :
    ∀ (ks : List Device) (gs : Groups),
      (∀ k ∈ ks, k.ip ≠ "" →
        ∃ m ∈ group_devices gs (networkKey k.ip subnet), m.ip = k.ip) →
      process_known subnet gs ks = gs := by
  intro ks
  induction ks with
  | nil => intro gs _; rfl
  | cons k rest ih =>
      intro gs h
      by_cases hk : (k.ip == "") = true
      · simp only [process_known, hk, if_true]
        exact ih gs (fun x hx => h x (List.mem_cons_of_mem k hx))
      · obtain ⟨m, hm, hmip⟩ := h k (List.mem_cons_self k rest) (by simpa using hk)
        have hany : (group_devices gs (networkKey k.ip subnet)).any
            (fun d => d.ip == k.ip) = true :=
          List.any_eq_true.mpr ⟨m, hm, by simpa using hmip⟩
        simp only [process_known, hk, Bool.false_eq_true, if_false, hany, if_true]
        exact ih gs (fun x hx => h x (List.mem_cons_of_mem k hx))

/-- C6 (counterexample): merging a one-record list with an identical copy
of itself does not leave the record unchanged — the merge stamps
`stored_last_seen` and `network_context` onto it. -/
theorem C6_counterexample :
    update_tree_merge "10.0.0.0/24" [cexMergeDevice] [cexMergeDevice]
      = [{ cexMergeDevice with
           stored_last_seen := some 100
           network_context := some "primary" }]
    ∧ update_tree_merge "10.0.0.0/24" [cexMergeDevice] [cexMergeDevice]
      ≠ [cexMergeDevice] := by
  refine ⟨by decide, by decide⟩

/-- C6 (amended): merging a device list (with distinct, non-empty IPs)
with an identical copy of itself produces exactly one record per
original — a permutation of the originals mapped through `self_merge` —
and `self_merge` preserves `ip`, `hostname`, `mac`, `vendor`, `pingable`
and `last_seen`; it changes only the bookkeeping fields
`stored_last_seen` and `network_context`, and downgrades `status` to
`"offline"` exactly for non-pingable records outside the interface's
subnet key (as the network-context rule independently dictates). -/
theorem C6_merge_self_amended (subnet : String) (L : List Device)
    (hnodup : (L.map Device.ip).Nodup) (hne : ∀ d ∈ L, d.ip ≠ "") :
    (update_tree_merge subnet L L).Perm (L.map (self_merge subnet))
    ∧ ∀ d : Device,
        (self_merge subnet d).ip = d.ip
        ∧ (self_merge subnet d).hostname = d.hostname
        ∧ (self_merge subnet d).mac = d.mac
        ∧ (self_merge subnet d).vendor = d.vendor
        ∧ (self_merge subnet d).pingable = d.pingable
        ∧ (self_merge subnet d).last_seen = d.last_seen
        ∧ (self_merge subnet d).status =
            (if networkKey d.ip subnet ≠ subnet ∧ d.pingable = false
             then "offline" else d.status)
        ∧ (self_merge subnet d).stored_last_seen =
            (if truthyT d.last_seen then some d.last_seen else d.stored_last_seen) := by
  constructor
  · unfold update_tree_merge
    rw [process_known_noop subnet L _ (fun k hk hkne =>
      process_fresh_contains subnet L L [] k hk hkne)]
    have h1 := process_fresh_perm subnet L L [] hne
    have h2 : L.map (merge_one subnet L) = L.map (self_merge subnet) := by
      apply List.map_congr_left
      intro d hd
      exact merge_one_self subnet L hnodup d hd
    simpa [flatten_groups, h2] using h1
  · intro d
    have hstamp : (if truthyT d.last_seen then
        { d with stored_last_seen := some d.last_seen } else d).pingable = d.pingable := by
      split_ifs <;> rfl
    refine ⟨?_, ?_, ?_, ?_, ?_, ?_, ?_, ?_⟩
    · unfold self_merge; rw [apply_network_context_ip]; split_ifs <;> rfl
    · unfold self_merge; rw [apply_network_context_hostname]; split_ifs <;> rfl
    · unfold self_merge; rw [apply_network_context_mac]; split_ifs <;> rfl
    · unfold self_merge; rw [apply_network_context_vendor]; split_ifs <;> rfl
    · unfold self_merge; rw [apply_network_context_pingable]; split_ifs <;> rfl
    · unfold self_merge; rw [apply_network_context_last_seen]; split_ifs <;> rfl
    · unfold self_merge
      rw [apply_network_context_status, hstamp]
      have hst : (if truthyT d.last_seen then
          { d with stored_last_seen := some d.last_seen } else d).status = d.status := by
        split_ifs <;> rfl
      rw [hst]
      by_cases hk : (networkKey d.ip subnet == subnet) = true
      · have : networkKey d.ip subnet = subnet := eq_of_beq hk
        simp [hk, this]
      · have hne' : networkKey d.ip subnet ≠ subnet := by simpa using hk
        cases hp : d.pingable <;> simp [hk, hne', hp]
    · unfold self_merge
      have : ∀ x : Device, (apply_network_context subnet (networkKey d.ip subnet) x).stored_last_seen
          = x.stored_last_seen := by
        intro x
        simp only [apply_network_context]; split_ifs <;> rfl
      rw [this]
      split_ifs <;> rfl

/-- C6 (witness): the amended statement evaluated on the concrete
one-record list. -/
theorem C6_witness :
    (update_tree_merge "10.0.0.0/24" [cexMergeDevice] [cexMergeDevice]).Perm
      ([cexMergeDevice].map (self_merge "10.0.0.0/24")) :=
  (C6_merge_self_amended "10.0.0.0/24" [cexMergeDevice] (by decide) (by decide)).1

end WolCaster
